import Mathlib

/-!
Shallow embedding of the `device` crate (`src/lib.rs`): the `Action`
vocabulary with its synonym registry, the `Device` entity with its
duty-cycle table, the builder-style validated setters, the `take_action`
transition function and the duty-cycle reader.

Modelling conventions:
* Rust `usize`/`u32`/`u128` values are modelled as `Nat`.  Machine-integer
  behaviour matters to the claims in two places, both modelled explicitly
  by the `RResult.panicked` outcome: the `some_count - 1` subtraction in
  `get_max_duty_cycle_index`, whose underflow aborts in debug builds
  (wraps in release builds), and the `self.target + amount` `usize`
  addition in `take_action`'s `Up` arm, whose overflow at sums of `2^64`
  or more likewise aborts in debug builds (wraps in release builds).
  The reader's `u32` multiplication `ds * max_duty_cycle` is kept as plain
  `Nat` multiplication: the claims about it range over table intensities
  and scales far below `2^32`.
* A Rust `Result<T, &'static str>` becomes `RResult T`, which has a third
  outcome `panicked` for executions that abort (integer underflow,
  out-of-bounds indexing, `expect` on `None`).
* `Uuid` is modelled as its underlying `u128` number (a `Nat`).
* `take_action` takes `&mut self` and uses early `return Err(..)`; it is
  modelled as `Device → Action → RResult Unit × Device`, where the second
  component is the device state when the function returns (each early
  error return carries the device as it stood at that point).
-/

namespace PwmDevice

/-- Outcome of a fallible Rust function: `Ok`, `Err(msg)`, or an aborted
execution (panic / arithmetic underflow in debug builds). -/
inductive RResult (α : Type) where
  | ok (val : α)
  | err (msg : String)
  | panicked
deriving DecidableEq

/-- Sequencing of fallible builder steps (models Rust `?` / method chaining
on `Result`). -/
def RResult.bind {α β : Type} (r : RResult α) (f : α → RResult β) : RResult β :=
  match r with
  | .ok a => f a
  | .err m => .err m
  | .panicked => .panicked

def RResult.isOk {α : Type} : RResult α → Bool
  | .ok _ => true
  | _ => false

def RResult.isErr {α : Type} : RResult α → Bool
  | .err _ => true
  | _ => false

/-- `DeviceGroup` from src/lib.rs lines 29-33. -/
inductive DeviceGroup where
  | Light
  | Fan
deriving DecidableEq

/-- `Action` from src/lib.rs lines 85-95.  Payloads (`Option<usize>`,
`usize`) are modelled as `Option Nat` / `Nat`. -/
inductive Action where
  | On
  | Off
  | Up (v : Option Nat)
  | Down (v : Option Nat)
  | Min
  | Max
  | Reverse
  | Set (v : Nat)
deriving DecidableEq, BEq

/-- The variant tag of an `Action`, modelling `std::mem::discriminant`. -/
def Action.discriminant : Action → Nat
  | .On => 0
  | .Off => 1
  | .Up _ => 2
  | .Down _ => 3
  | .Min => 4
  | .Max => 5
  | .Reverse => 6
  | .Set _ => 7

/-- `Action::same_variant` (src/lib.rs lines 98-100): tag equality,
ignoring payloads. -/
def Action.same_variant (a b : Action) : Bool :=
  a.discriminant == b.discriminant

/-- `ActionSynonyms` entry (src/lib.rs lines 35-40); the `Uuid` number is
kept as a `Nat`. -/
structure ActionSynonyms where
  action : Action
  text : String
  uuid_number : Nat
deriving DecidableEq

/-- `ACTION_SYNONYMS` table (src/lib.rs lines 42-83). -/
def ACTION_SYNONYMS : List ActionSynonyms :=
  [ { action := .On, text := "on", uuid_number := 0x928e9b929939486b998d69613f89a9a6 },
    { action := .Off, text := "off", uuid_number := 0x13df417d74d2443b87e3de60557b75b8 },
    { action := .Up none, text := "up", uuid_number := 0xbc6c6eeba0ba40e0a57ff5186d4350ce },
    { action := .Down none, text := "down", uuid_number := 0x62865402c86245eea282d4f2ca8fd51b },
    { action := .Min, text := "minimum", uuid_number := 0x4aad1b26ea9b455190d0d917102b7f36 },
    { action := .Max, text := "maximum", uuid_number := 0x4ffb631fa4ba4fb5a189f7a3bb9dfa01 },
    { action := .Reverse, text := "reverse", uuid_number := 0x1a8a1df0523e4acb8390b872329a9ca7 },
    { action := .Set 0, text := "set", uuid_number := 0x2a4fae8107134e1fa8187ac56e4f13e4 } ]

/-- Models Rust `str::to_lowercase` (ASCII case folding); written as a
structural map over the character list so it evaluates in the kernel. -/
def to_lowercase (s : String) : String :=
  String.mk (s.data.map Char.toLower)

/-- `Action::from_str` (src/lib.rs lines 102-128): lower-cases the input;
"up"/"down" carry the supplied argument verbatim, "set" requires it, any
other text is looked up in `ACTION_SYNONYMS` (first match wins). -/
def Action.from_str (s : String) (target : Option Nat) : RResult Action :=
  let s := to_lowercase s
  if s = "up" then .ok (.Up target)
  else if s = "down" then .ok (.Down target)
  else if s = "set" then
    match target with
    | some v => .ok (.Set v)
    | none => .err "No target was given"
  else
    match ACTION_SYNONYMS.find? (fun synonym => synonym.text == s) with
    | some synonym => .ok synonym.action
    | none => .err "Bad Action text given"

/-- `Action::from_u128` (src/lib.rs lines 130-137): looks the id up in the
table, then delegates to `from_str` with the resolved text. -/
def Action.from_u128 (uuid_number : Nat) (target : Option Nat) : RResult Action :=
  match ACTION_SYNONYMS.find? (fun synonym => synonym.uuid_number == uuid_number) with
  | some action_synonym => Action.from_str action_synonym.text target
  | none => .err "Bad Uuid number given, no associated action"

/-- `Action::to_str` (src/lib.rs lines 139-146): first table entry with the
same variant tag; empty string if none matches. -/
def Action.to_str (a : Action) : String :=
  match ACTION_SYNONYMS.find? (fun action_synonym => a.same_variant action_synonym.action) with
  | some action_synonym => action_synonym.text
  | none => ""

/-- `Action::to_uuid` (src/lib.rs lines 148-155), with the `Uuid` modelled
as its `u128` number. -/
def Action.to_uuid (a : Action) : Nat :=
  match ACTION_SYNONYMS.find? (fun action_synonym => a.same_variant action_synonym.action) with
  | some action_synonym => action_synonym.uuid_number
  | none => 0

/-- `Device` (src/lib.rs lines 185-243).  `uuid` is the `u128` number,
`duty_cycles` is the `[Option<u32>; 8]` array as a list (length 8 for every
value the code constructs). -/
structure Device where
  uuid : Nat
  name : String
  action : Action
  available_actions : List Action
  default_target : Nat
  duty_cycles : List (Option Nat)
  max_duty_cycle_index : Nat
  target : Nat
  freq_Hz : Nat
  device_group : Option DeviceGroup
  reversed : Bool
  updated : Bool
deriving DecidableEq

/-- Loop body of `Device::get_max_duty_cycle_index` (src/lib.rs lines
377-388): counts `Some` slots and rejects any `Some` that follows a
`None`. -/
def gmdci_loop : List (Option Nat) → Nat → Bool → RResult Nat
  | [], some_count, _ => .ok some_count
  | some _ :: rest, some_count, found_none =>
    if found_none then
      .err "Within the array of duty_cycles, there mustn't be a Some value that follows a None."
    else
      gmdci_loop rest (some_count + 1) found_none
  | none :: rest, some_count, _ => gmdci_loop rest some_count true

/-- `Device::get_max_duty_cycle_index` (src/lib.rs lines 376-390).  The
final `Ok(some_count - 1)` is a `usize` subtraction: when `some_count = 0`
(all eight slots `None`) it underflows, which aborts with
"attempt to subtract with overflow" in debug builds (and wraps to
`2^64 - 1` in release builds); that outcome is modelled as `panicked`. -/
def get_max_duty_cycle_index (duty_cycles : List (Option Nat)) : RResult Nat :=
  match gmdci_loop duty_cycles 0 false with
  | .err e => .err e
  | .panicked => .panicked
  | .ok some_count =>
    if some_count = 0 then .panicked
    else .ok (some_count - 1)

/-- `Device::build` (src/lib.rs lines 249-284). -/
def build (uuid : Nat) (name : String) : RResult Device :=
  let duty_cycles : List (Option Nat) :=
    [some 0, some 2, some 4, some 8, some 16, some 32, some 64, some 96]
  match get_max_duty_cycle_index duty_cycles with
  | .err e => .err e
  | .panicked => .panicked
  | .ok max_duty_cycle_index =>
    .ok
      { uuid := uuid
        name := name
        action := .Off
        available_actions :=
          [.On, .Off, .Up none, .Down none, .Min, .Max, .Set 0]
        default_target := 3
        duty_cycles := duty_cycles
        max_duty_cycle_index := max_duty_cycle_index
        target := 0
        freq_Hz := 100
        device_group := none
        reversed := false
        updated := true }

/-- `Device::default_target` builder setter (src/lib.rs lines 320-329);
named `with_default_target` because the record field already carries the
Rust name. -/
def Device.with_default_target (d : Device) (default_target : Nat) : RResult Device :=
  if default_target > d.max_duty_cycle_index then
    .err "The default_target must not be greater than max_duty_cycle_index, duty_cycles must have a Some value at the default_value index."
  else
    .ok { d with default_target := default_target }

/-- `Device::duty_cycles` builder setter (src/lib.rs lines 335-346); named
`with_duty_cycles` because the record field already carries the Rust
name. -/
def Device.with_duty_cycles (d : Device) (duty_cycles : List (Option Nat)) : RResult Device :=
  match get_max_duty_cycle_index duty_cycles with
  | .err e => .err e
  | .panicked => .panicked
  | .ok max_duty_cycle_index =>
    if d.default_target > max_duty_cycle_index ∨ d.target > max_duty_cycle_index then
      .err "The default_target and target must not be greater than max_duty_cycle_index, duty_cycles must have a Some value at the default_value index."
    else
      .ok { d with duty_cycles := duty_cycles, max_duty_cycle_index := max_duty_cycle_index }

/-- `Device::target` builder setter (src/lib.rs lines 353-360); named
`with_target` because the record field already carries the Rust name. -/
def Device.with_target (d : Device) (target : Nat) : RResult Device :=
  if target > d.max_duty_cycle_index then
    .err "The target must not be greater than max_duty_cycle_index, duty_cycles must have a Some value at the default_value index."
  else
    .ok { d with target := target }

/-- One more than the largest `usize` value: `target + amount` in
`take_action`'s `Up` arm is a `usize` sum, which overflows when it reaches
this bound. -/
def USIZE_MOD : Nat := 2 ^ 64

/-- Common epilogue of every successful `take_action` arm (src/lib.rs lines
476-477): store the requested action and set the `updated` flag. -/
def finish_take_action (d : Device) (action : Action) : RResult Unit × Device :=
  (.ok (), { d with action := action, updated := true })

/-- `Device::take_action` (src/lib.rs lines 409-479).  Each early
`return Err(..)` is rendered as the pair of the error and the device as it
stood at that return point (no mutation precedes any error return in the
source).  In the `Up` arm, `self.target + amount` is a `usize` addition:
when the sum reaches `2^64` it overflows, which aborts with
add-with-overflow in debug builds (and wraps in release builds); that
outcome is modelled as `panicked`, paired with the device as it stood at
the abort. -/
def take_action (d : Device) (action : Action) : RResult Unit × Device :=
  match action with
  | .On =>
    if !(d.available_actions.contains action) then
      (.err "Action not available for device.", d)
    else
      finish_take_action { d with target := d.default_target } action
  | .Off =>
    if !(d.available_actions.contains action) then
      (.err "Action not available for device.", d)
    else
      finish_take_action { d with target := 0 } action
  | .Up v =>
    if !(d.available_actions.contains (Action.Up none)) then
      (.err "Action not available for device.", d)
    else
      let amount := match v with | some a => a | none => 1
      if USIZE_MOD ≤ d.target + amount then (.panicked, d)
      else
        finish_take_action
          { d with target := Nat.min (d.target + amount) d.max_duty_cycle_index } action
  | .Down v =>
    if !(d.available_actions.contains (Action.Down none)) then
      (.err "Action not available for device.", d)
    else
      let amount := match v with | some a => a | none => 1
      finish_take_action
        { d with target := if amount < d.target then d.target - amount else 0 } action
  | .Min =>
    if !(d.available_actions.contains action) then
      (.err "Action not available for device.", d)
    else
      finish_take_action { d with target := 1 } action
  | .Max =>
    if !(d.available_actions.contains action) then
      (.err "Action not available for device.", d)
    else
      finish_take_action { d with target := d.max_duty_cycle_index } action
  | .Reverse =>
    if !(d.available_actions.contains action) then
      (.err "Action not available for device.", d)
    else
      finish_take_action { d with reversed := !d.reversed } action
  | .Set v =>
    if !(d.available_actions.contains (Action.Set 0)) then
      (.err "Action not available for device.", d)
    else if v > d.max_duty_cycle_index then
      (.err "You attempted to set the target, to something larger than the max duty cycle index", d)
    else
      finish_take_action { d with target := Nat.min v d.max_duty_cycle_index } action

/-- `Device::needs_hardware_duty_cycle_update` (src/lib.rs lines 481-483). -/
def needs_hardware_duty_cycle_update (d : Device) : Bool :=
  d.updated

/-- `Device::get_and_update_duty_cycle` (src/lib.rs lines 492-499): looks
up `duty_cycles[target]` (out-of-bounds indexing and the `expect` on a
`None` slot abort, modelled as `panicked`), clears `updated`, and returns
the scaled value with `u32` integer division. -/
def get_and_update_duty_cycle (d : Device) (max_duty_cycle : Nat) : RResult (Nat × Device) :=
  match d.duty_cycles[d.target]? with
  | some (some ds) => .ok (ds * max_duty_cycle / 100, { d with updated := false })
  | some none =>
    match d.duty_cycles[d.max_duty_cycle_index]? with
    | some (some ds) => .ok (ds * max_duty_cycle / 100, { d with updated := false })
    | _ => .panicked
  | none => .panicked

/-- The device produced by `Device::build(uuid, name)` (src/lib.rs lines
262-283), written out as a record literal. -/
def default_device (uuid : Nat) (name : String) : Device :=
  { uuid := uuid
    name := name
    action := .Off
    available_actions := [.On, .Off, .Up none, .Down none, .Min, .Max, .Set 0]
    default_target := 3
    duty_cycles := [some 0, some 2, some 4, some 8, some 16, some 32, some 64, some 96]
    max_duty_cycle_index := 7
    target := 0
    freq_Hz := 100
    device_group := none
    reversed := false
    updated := true }

/-- A device with a single active duty-cycle slot (`max_duty_cycle_index = 0`),
exactly the record produced by
`build(..., ...).default_target(0).duty_cycles([Some(0), None, ...])`. -/
def single_slot_device : Device :=
  { uuid := 0x12345
    name := "name"
    action := .Off
    available_actions := [.On, .Off, .Up none, .Down none, .Min, .Max, .Set 0]
    default_target := 0
    duty_cycles := [some 0, none, none, none, none, none, none, none]
    max_duty_cycle_index := 0
    target := 0
    freq_Hz := 100
    device_group := none
    reversed := false
    updated := true }

/-- C10: a Device freshly constructed by `build(uuid, name)` has
`available_actions = [On, Off, Up(None), Down(None), Min, Max, Set(0)]`,
which excludes `Reverse`; `take_action(Reverse)` on it fails with the
not-available error and leaves the device unchanged; its initial `target`
is 0, which differs from its `default_target`. -/
theorem c10_default_build (uuid : Nat) (name : String) :
    build uuid name = .ok (default_device uuid name)
    ∧ (default_device uuid name).available_actions
        = [.On, .Off, .Up none, .Down none, .Min, .Max, .Set 0]
    ∧ (default_device uuid name).available_actions.contains .Reverse = false
    ∧ take_action (default_device uuid name) .Reverse
        = (.err "Action not available for device.", default_device uuid name)
    ∧ (default_device uuid name).target = 0
    ∧ (default_device uuid name).target ≠ (default_device uuid name).default_target :=
  ⟨rfl, rfl, rfl, rfl, rfl, by simp [default_device]⟩

/-- C2 (code evaluation at the failing input): for the all-`None`
duty-cycle array, `get_max_duty_cycle_index` reaches the `usize`
subtraction `some_count - 1` with `some_count = 0` and aborts (debug-build
subtract-with-overflow), so `Device::duty_cycles` panics rather than
returning an error. -/
theorem c2_all_none_panics :
    get_max_duty_cycle_index [none, none, none, none, none, none, none, none] = .panicked
    ∧ (default_device 0 "w").with_duty_cycles
        [none, none, none, none, none, none, none, none] = .panicked
    ∧ ((default_device 0 "w").with_duty_cycles
        [none, none, none, none, none, none, none, none]).isErr = false := by
  decide

/-- C3: whenever `take_action` returns an error (availability check or the
`Set` range check), the device — every field of it — is unchanged. -/
theorem c3_error_leaves_device_unchanged (d : Device) (a : Action) (e : String)
    (h : (take_action d a).1 = .err e) : (take_action d a).2 = d := by
  revert h
  cases a <;> simp only [take_action, finish_take_action] <;> (repeat' split) <;>
    intro h <;> simp_all

theorem c3_witness :
    (take_action (default_device 0 "w") .Reverse).1 = .err "Action not available for device."
    ∧ (take_action (default_device 0 "w") .Reverse).2 = default_device 0 "w" :=
  ⟨by decide,
   c3_error_leaves_device_unchanged (default_device 0 "w") .Reverse
     "Action not available for device." (by decide)⟩

/-- C4: with `Set` available, `take_action(Set(v))` for `v` strictly above
`max_duty_cycle_index` fails with the range error and leaves the device
(and in particular `target`) unchanged. -/
theorem c4_set_out_of_range (d : Device) (v : Nat)
    (havail : d.available_actions.contains (Action.Set 0) = true)
    (hv : v > d.max_duty_cycle_index) :
    (take_action d (.Set v)).1
      = .err "You attempted to set the target, to something larger than the max duty cycle index"
    ∧ (take_action d (.Set v)).2 = d
    ∧ (take_action d (.Set v)).2.target = d.target := by
  simp [take_action, havail, hv]

theorem c4_witness :
    (default_device 0 "w").available_actions.contains (Action.Set 0) = true
    ∧ 9 > (default_device 0 "w").max_duty_cycle_index
    ∧ (take_action (default_device 0 "w") (.Set 9)).1
        = .err "You attempted to set the target, to something larger than the max duty cycle index"
    ∧ (take_action (default_device 0 "w") (.Set 9)).2 = default_device 0 "w"
    ∧ (take_action (default_device 0 "w") (.Set 9)).2.target = (default_device 0 "w").target :=
  ⟨by decide, by decide,
   (c4_set_out_of_range (default_device 0 "w") 9 (by decide) (by decide)).1,
   (c4_set_out_of_range (default_device 0 "w") 9 (by decide) (by decide)).2.1,
   (c4_set_out_of_range (default_device 0 "w") 9 (by decide) (by decide)).2.2⟩

/-- C1 counterexample: a device with a single active slot
(`max_duty_cycle_index = 0`) is reachable through the builder and
satisfies both claimed preconditions, yet `take_action(Min)` succeeds and
sets `target := 1`, leaving `target > max_duty_cycle_index`. -/
theorem c1_counterexample :
    ((build 0x12345 "name").bind (fun d => d.with_default_target 0)).bind
        (fun d => d.with_duty_cycles [some 0, none, none, none, none, none, none, none])
      = .ok single_slot_device
    ∧ single_slot_device.target ≤ single_slot_device.max_duty_cycle_index
    ∧ single_slot_device.default_target ≤ single_slot_device.max_duty_cycle_index
    ∧ (take_action single_slot_device .Min).1 = .ok ()
    ∧ (take_action single_slot_device .Min).2.max_duty_cycle_index = 0
    ∧ (take_action single_slot_device .Min).2.target = 1
    ∧ ¬ ((take_action single_slot_device .Min).2.target
          ≤ (take_action single_slot_device .Min).2.max_duty_cycle_index) := by
  decide

/-- C1 (amended): for every device with `target ≤ max_duty_cycle_index`,
`default_target ≤ max_duty_cycle_index` and `1 ≤ max_duty_cycle_index`,
every `take_action` call that returns success preserves
`target ≤ max_duty_cycle_index` (the extra hypothesis is needed only for
`Min`, which sets `target := 1` unconditionally). -/
theorem c1_amended (d : Device) (a : Action)
    (ht : d.target ≤ d.max_duty_cycle_index)
    (hd : d.default_target ≤ d.max_duty_cycle_index)
    (hone : 1 ≤ d.max_duty_cycle_index)
    (hok : (take_action d a).1 = .ok ()) :
    (take_action d a).2.target ≤ (take_action d a).2.max_duty_cycle_index := by
  revert hok
  cases a <;> simp only [take_action, finish_take_action] <;> (repeat' split) <;>
    intro hok <;> simp_all <;> omega

theorem c1_witness :
    (default_device 0 "w").target ≤ (default_device 0 "w").max_duty_cycle_index
    ∧ (default_device 0 "w").default_target ≤ (default_device 0 "w").max_duty_cycle_index
    ∧ 1 ≤ (default_device 0 "w").max_duty_cycle_index
    ∧ (take_action (default_device 0 "w") .On).1 = .ok ()
    ∧ (take_action (default_device 0 "w") .On).2.target
        ≤ (take_action (default_device 0 "w") .On).2.max_duty_cycle_index :=
  ⟨by decide, by decide, by decide, by decide,
   c1_amended (default_device 0 "w") .On (by decide) (by decide) (by decide) (by decide)⟩

/-- C5 counterexample: at a builder-reachable device with `target = 7` and
the representable `usize` step `2^64 - 1`, the `usize` sum
`target + amount` overflows, so `take_action(Up(step))` aborts
(add-with-overflow in debug builds; release builds wrap and then clamp to
6) instead of returning success with
`target = min(target + step, max_duty_cycle_index)` as the claim states. -/
theorem c5_counterexample :
    (default_device 0 "w").with_target 7 = .ok { default_device 0 "w" with target := 7 }
    ∧ ({ default_device 0 "w" with target := 7 } : Device).available_actions.contains
        (Action.Up none) = true
    ∧ (take_action { default_device 0 "w" with target := 7 }
        (.Up (some (2 ^ 64 - 1)))).1 = .panicked
    ∧ ¬ ((take_action { default_device 0 "w" with target := 7 }
            (.Up (some (2 ^ 64 - 1)))).1 = .ok ()
         ∧ (take_action { default_device 0 "w" with target := 7 }
              (.Up (some (2 ^ 64 - 1)))).2.target
            = Nat.min (7 + (2 ^ 64 - 1))
                ({ default_device 0 "w" with target := 7 } : Device).max_duty_cycle_index) := by
  decide

/-- C5 (amended): with `Up`/`Down` available, and the step small enough
that the `usize` sum `target + amount` stays below `2^64` (larger sums
overflow: debug builds abort), `take_action(Up(v))` sets `target` to
`min(target + amount, max_duty_cycle_index)` and `take_action(Down(v))`
sets it to `target - amount` when `amount < target` and to `0` otherwise,
where `amount` is the supplied step or 1; consequently the result never
leaves `[0, max_duty_cycle_index]`, `Up` saturates at
`max_duty_cycle_index` and `Down` saturates at 0. -/
theorem c5_up_down (d : Device) (v : Option Nat)
    (hU : d.available_actions.contains (Action.Up none) = true)
    (hD : d.available_actions.contains (Action.Down none) = true)
    (hof : d.target + v.getD 1 < USIZE_MOD) :
    (take_action d (.Up v)).1 = .ok ()
    ∧ (take_action d (.Down v)).1 = .ok ()
    ∧ (take_action d (.Up v)).2.target
        = Nat.min (d.target + v.getD 1) d.max_duty_cycle_index
    ∧ (take_action d (.Down v)).2.target
        = (if v.getD 1 < d.target then d.target - v.getD 1 else 0)
    ∧ (take_action d (.Up v)).2.target ≤ d.max_duty_cycle_index
    ∧ (d.target ≤ d.max_duty_cycle_index
        → (take_action d (.Down v)).2.target ≤ d.max_duty_cycle_index)
    ∧ (d.target = d.max_duty_cycle_index
        → (take_action d (.Up v)).2.target = d.max_duty_cycle_index)
    ∧ (d.target = 0 → (take_action d (.Down v)).2.target = 0) := by
  cases v <;> simp only [Option.getD] at hof <;>
    simp [take_action, hU, hD, finish_take_action, Nat.not_le.mpr hof] <;>
    refine ⟨fun h => ?_, by omega, by omega⟩ <;> split <;> omega

theorem c5_witness :
    (default_device 0 "w").available_actions.contains (Action.Up none) = true
    ∧ (default_device 0 "w").available_actions.contains (Action.Down none) = true
    ∧ (default_device 0 "w").target + (some 2).getD 1 < USIZE_MOD
    ∧ (take_action (default_device 0 "w") (.Up (some 2))).1 = .ok ()
    ∧ (take_action (default_device 0 "w") (.Down (some 2))).1 = .ok ()
    ∧ (take_action (default_device 0 "w") (.Up (some 2))).2.target
        = Nat.min ((default_device 0 "w").target + (some 2).getD 1)
            (default_device 0 "w").max_duty_cycle_index
    ∧ (take_action (default_device 0 "w") (.Down (some 2))).2.target
        = (if (some 2).getD 1 < (default_device 0 "w").target
            then (default_device 0 "w").target - (some 2).getD 1 else 0)
    ∧ (take_action (default_device 0 "w") (.Up (some 2))).2.target
        ≤ (default_device 0 "w").max_duty_cycle_index
    ∧ ((default_device 0 "w").target ≤ (default_device 0 "w").max_duty_cycle_index
        → (take_action (default_device 0 "w") (.Down (some 2))).2.target
            ≤ (default_device 0 "w").max_duty_cycle_index)
    ∧ ((default_device 0 "w").target = (default_device 0 "w").max_duty_cycle_index
        → (take_action (default_device 0 "w") (.Up (some 2))).2.target
            = (default_device 0 "w").max_duty_cycle_index)
    ∧ ((default_device 0 "w").target = 0
        → (take_action (default_device 0 "w") (.Down (some 2))).2.target = 0) := by
  have h := c5_up_down (default_device 0 "w") (some 2) (by decide) (by decide) (by decide)
  exact ⟨by decide, by decide, by decide, h.1, h.2.1, h.2.2.1, h.2.2.2.1, h.2.2.2.2.1,
    h.2.2.2.2.2.1, h.2.2.2.2.2.2.1, h.2.2.2.2.2.2.2⟩

/-- C6: with `On` and `Off` available, `take_action(On)` sets `target` to
`default_target` and `take_action(Off)` sets `target` to 0; and every
successful `take_action` stores the requested action value (payload
included) in the `action` field and sets the `updated` flag. -/
theorem c6_on_off_success_effects (d : Device)
    (hOn : d.available_actions.contains Action.On = true)
    (hOff : d.available_actions.contains Action.Off = true) :
    take_action d .On
      = (.ok (), { d with target := d.default_target, action := .On, updated := true })
    ∧ take_action d .Off
      = (.ok (), { d with target := 0, action := .Off, updated := true })
    ∧ ∀ a : Action, (take_action d a).1 = .ok ()
        → (take_action d a).2.action = a ∧ (take_action d a).2.updated = true := by
  refine ⟨by simp [take_action, hOn, finish_take_action],
          by simp [take_action, hOff, finish_take_action], ?_⟩
  intro a
  cases a <;> simp only [take_action, finish_take_action] <;> (repeat' split) <;>
    intro hok <;> simp_all

theorem c6_witness :
    (default_device 0 "w").available_actions.contains Action.On = true
    ∧ (default_device 0 "w").available_actions.contains Action.Off = true
    ∧ take_action (default_device 0 "w") .On
      = (.ok (), { default_device 0 "w" with
                    target := (default_device 0 "w").default_target,
                    action := .On, updated := true })
    ∧ take_action (default_device 0 "w") .Off
      = (.ok (), { default_device 0 "w" with target := 0, action := .Off, updated := true })
    ∧ ((take_action (default_device 0 "w") .Min).2.action = .Min
        ∧ (take_action (default_device 0 "w") .Min).2.updated = true) := by
  have h := c6_on_off_success_effects (default_device 0 "w") (by decide) (by decide)
  exact ⟨by decide, by decide, h.1, h.2.1, h.2.2 .Min (by decide)⟩

/-- C7: for a device whose `target` indexes an active slot,
`get_and_update_duty_cycle(scale)` returns `duty_cycles[target] * scale / 100`
(integer truncation) and clears `updated`; `needs_hardware_duty_cycle_update`
returns exactly the `updated` flag; a second read without an intervening
`take_action` returns the same value, with the flag false beforehand. -/
theorem c7_reader (d : Device) (scale ds : Nat)
    (h : d.duty_cycles[d.target]? = some (some ds)) :
    get_and_update_duty_cycle d scale = .ok (ds * scale / 100, { d with updated := false })
    ∧ needs_hardware_duty_cycle_update d = d.updated
    ∧ get_and_update_duty_cycle { d with updated := false } scale
        = .ok (ds * scale / 100, { d with updated := false })
    ∧ needs_hardware_duty_cycle_update { d with updated := false } = false := by
  refine ⟨?_, rfl, ?_, rfl⟩ <;> simp [get_and_update_duty_cycle, h]

theorem c7_witness :
    ({ default_device 0 "w" with target := 4 } : Device).duty_cycles[
        ({ default_device 0 "w" with target := 4 } : Device).target]? = some (some 16)
    ∧ get_and_update_duty_cycle { default_device 0 "w" with target := 4 } 255
        = .ok (16 * 255 / 100, { default_device 0 "w" with target := 4, updated := false })
    ∧ 16 * 255 / 100 = 40
    ∧ needs_hardware_duty_cycle_update
        { default_device 0 "w" with target := 4, updated := false } = false :=
  ⟨by decide,
   (c7_reader { default_device 0 "w" with target := 4 } 255 16 (by decide)).1,
   by decide,
   (c7_reader { default_device 0 "w" with target := 4 } 255 16 (by decide)).2.2.2⟩

/-- C8: for every entry of the action synonym table and any supplied
numeric argument, resolving the canonical name through `from_str` yields an
action of the same variant tag, and resolving the canonical 128-bit
identifier through `from_u128` likewise yields the same tag. -/
theorem c8_roundtrip (syn : ActionSynonyms) (hmem : syn ∈ ACTION_SYNONYMS) (n : Nat) :
    (∃ a, Action.from_str syn.action.to_str (some n) = .ok a
        ∧ a.same_variant syn.action = true)
    ∧ (∃ b, Action.from_u128 syn.action.to_uuid (some n) = .ok b
        ∧ b.same_variant syn.action = true) := by
  fin_cases hmem <;> exact ⟨⟨_, rfl, rfl⟩, ⟨_, rfl, rfl⟩⟩

theorem c8_witness :
    ({ action := .Set 0, text := "set",
       uuid_number := 0x2a4fae8107134e1fa8187ac56e4f13e4 } : ActionSynonyms) ∈ ACTION_SYNONYMS
    ∧ ((∃ a, Action.from_str (Action.Set 0).to_str (some 5) = .ok a
          ∧ a.same_variant (.Set 0) = true)
       ∧ (∃ b, Action.from_u128 (Action.Set 0).to_uuid (some 5) = .ok b
          ∧ b.same_variant (.Set 0) = true)) :=
  ⟨by decide,
   c8_roundtrip
     { action := .Set 0, text := "set", uuid_number := 0x2a4fae8107134e1fa8187ac56e4f13e4 }
     (by decide) 5⟩

/-- C9 counterexample: the claim's parenthetical fails — there is no
device, table and index with the table narrower than the installed one and
the index a raise of `default_target` such that installing the table and
then raising `default_target` is rejected while the opposite order
succeeds: whenever the raise-first order succeeds, the narrow-first order
succeeds as well. -/
theorem c9_counterexample :
    ¬ ∃ (d : Device) (t : List (Option Nat)) (i m : Nat),
        get_max_duty_cycle_index t = .ok m
        ∧ m < d.max_duty_cycle_index
        ∧ d.default_target < i
        ∧ ((d.with_duty_cycles t).bind (fun d1 => d1.with_default_target i)).isErr = true
        ∧ ((d.with_default_target i).bind (fun d1 => d1.with_duty_cycles t)).isOk = true := by
  rintro ⟨d, t, i, m, hm, hnarrow, hraise, hA, hB⟩
  by_cases h1 : i > d.max_duty_cycle_index
  · simp [Device.with_default_target, RResult.bind, h1, RResult.isOk] at hB
  · by_cases h2 : i > m ∨ d.target > m
    · simp [Device.with_default_target, Device.with_duty_cycles, RResult.bind,
        h1, h2, hm, RResult.isOk] at hB
    · have h3 : ¬ (d.default_target > m ∨ d.target > m) := by omega
      have h4 : ¬ (i > m) := by omega
      simp [Device.with_duty_cycles, Device.with_default_target, RResult.bind,
        hm, h3, h4, RResult.isErr] at hA

/-- C9 (amended): each builder setter validates only against the currently
installed state — `default_target(i)` fails exactly when `i` exceeds the
installed `max_duty_cycle_index`, and (for a well-formed table)
`duty_cycles(t)` fails exactly when the installed `target` or
`default_target` exceeds the new table's maximum index — so narrowing the
table before lowering `default_target` can be rejected while the opposite
order succeeds. -/
theorem c9_amended (d : Device) (i : Nat) (t : List (Option Nat)) (m : Nat)
    (hm : get_max_duty_cycle_index t = .ok m) :
    ((d.with_default_target i).isErr = true ↔ i > d.max_duty_cycle_index)
    ∧ ((d.with_duty_cycles t).isErr = true ↔ (d.default_target > m ∨ d.target > m))
    ∧ ((default_device 0 "w").with_duty_cycles
        [some 0, some 1, some 3, none, none, none, none, none]).isErr = true
    ∧ (((default_device 0 "w").with_default_target 1).bind
        (fun d1 => d1.with_duty_cycles
          [some 0, some 1, some 3, none, none, none, none, none])).isOk = true := by
  refine ⟨?_, ?_, by decide, by decide⟩
  · simp only [Device.with_default_target]
    split <;> simp_all [RResult.isErr]
  · simp only [Device.with_duty_cycles, hm]
    split <;> simp_all [RResult.isErr]

theorem c9_witness :
    get_max_duty_cycle_index [some 0, some 2, some 4, some 8, some 16, some 32, some 64, some 96]
      = .ok 7
    ∧ ((((default_device 0 "x").with_default_target 9).isErr = true
          ↔ 9 > (default_device 0 "x").max_duty_cycle_index)
       ∧ (((default_device 0 "x").with_duty_cycles
            [some 0, some 2, some 4, some 8, some 16, some 32, some 64, some 96]).isErr = true
          ↔ ((default_device 0 "x").default_target > 7 ∨ (default_device 0 "x").target > 7))
       ∧ ((default_device 0 "w").with_duty_cycles
            [some 0, some 1, some 3, none, none, none, none, none]).isErr = true
       ∧ (((default_device 0 "w").with_default_target 1).bind
            (fun d1 => d1.with_duty_cycles
              [some 0, some 1, some 3, none, none, none, none, none])).isOk = true) :=
  ⟨by decide,
   c9_amended (default_device 0 "x") 9
     [some 0, some 2, some 4, some 8, some 16, some 32, some 64, some 96] 7 (by decide)⟩

end PwmDevice
